import Mathlib

/-!
Shallow embedding of the Resilient API Client / Endpoint-Failover Core of the
yoga-pose-detection repository (the authentication-context API logic, present
in three near-identical variants: `src/unnamed/part_000`,
`src/unnamed/part_001` and `src/frontend/src/contexts/AuthContext.js`).

Modelling conventions:
- React state (`apiStatus`, `currentApiUrl`) becomes an explicit `ClientState`
  record threaded through the functions; `setApiStatus` / `setCurrentApiUrl`
  become functional record updates.
- A JavaScript thrown value becomes the `.error` case of `Except JsError _`,
  where `JsError` carries the runtime `name` and `message` of the error.
- Host functions (fetch, CapacitorHttp.request, JSON.parse, res.json()) are
  oracles: their outcome at each call site is an input of the model, so every
  combination of success / HTTP error status / thrown error / timeout is
  quantified over.
- Inside one `apiCall` retry chain, `token` and `currentApiUrl` are the
  `useCallback` closure’s captured render-scope consts (the recursive retry
  call resolves to the same closure), so they are parameters fixed across the
  chain; only the host/transport outcomes vary per attempt.
- Status values are the literal strings of the source
  (`"checking" | "production" | "local" | "offline"`); the spec's names map as
  primary-active ≙ "production", fallback-active ≙ "local".
-/

namespace YogaApi

/-- The two configured endpoint candidates (priority order: production first,
local second), from `PRODUCTION_API_URL` / `LOCAL_API_URL` in
`src/unnamed/part_000` lines 27–33 (same in `part_001` lines 20–21). Each is
overridable by environment configuration, hence a parameter. -/
structure Config where
  PRODUCTION_API_URL : String
  LOCAL_API_URL : String
deriving Repr, DecidableEq

/-- The documented defaults of the two base URLs. -/
def defaultConfig : Config :=
  { PRODUCTION_API_URL := "https://yoga-pose-detection-1.onrender.com/api"
    LOCAL_API_URL := "http://localhost:5000/api" }

/-- Outcome of one host-level `fetch` of a URL under a timeout: a 2xx response
(`res.ok`), a non-ok HTTP response, a thrown network error, or a timeout
(`AbortError` raised by the abort controller). -/
inductive FetchOutcome where
  | ok
  | httpError
  | netError
  | timeout
deriving Repr, DecidableEq

/-- The mutable client state of the provider: `apiStatus` and `currentApiUrl`
(React `useState` pair, `src/unnamed/part_000` lines 25, 35). -/
structure ClientState where
  apiStatus : String
  currentApiUrl : String
deriving Repr, DecidableEq

/-- Initial state: `useState('checking')` and
`useState(PRODUCTION_API_URL)` — the Active Endpoint starts at the production
candidate, never undefined. -/
def initialState (cfg : Config) : ClientState :=
  { apiStatus := "checking", currentApiUrl := cfg.PRODUCTION_API_URL }

/-- Embeds `tryHealth` of `src/unnamed/part_000` lines 43–53: it succeeds exactly when
the fetch returned an ok response; a non-ok response throws
(`if (!res.ok) throw ...`), and a network error or abort propagates, so all
three failure outcomes are equivalent to the caller's `catch`. -/
def tryHealthOk : FetchOutcome → Bool
  | .ok => true
  | _ => false

/-- Embeds `checkApiHealth` (`src/unnamed/part_000` lines 40–71): set status
`"checking"`, probe `PRODUCTION_API_URL ++ "/health"` with a 6000 ms timeout;
on success set the url and status to production and return; otherwise probe
`LOCAL_API_URL ++ "/health"` with a 3000 ms timeout; on success set local;
otherwise set status `"offline"` (url untouched). `health` is the oracle for
the host fetch: url and timeout ↦ outcome. `part_001` lines 26–68 has the
same transition structure (sequential try blocks instead of nested
try/catch). -/
def checkApiHealth (cfg : Config) (health : String → Nat → FetchOutcome)
    (s : ClientState) : String × ClientState :=
  let s0 : ClientState := { s with apiStatus := "checking" }
  if tryHealthOk (health (cfg.PRODUCTION_API_URL ++ "/health") 6000) then
    ("production", { s0 with currentApiUrl := cfg.PRODUCTION_API_URL, apiStatus := "production" })
  else if tryHealthOk (health (cfg.LOCAL_API_URL ++ "/health") 3000) then
    ("local", { s0 with currentApiUrl := cfg.LOCAL_API_URL, apiStatus := "local" })
  else
    ("offline", { s0 with apiStatus := "offline" })

/-- Runs `n` successive invocations of `checkApiHealth` against a fixed
environment. -/
def probeIter (cfg : Config) (health : String → Nat → FetchOutcome) :
    Nat → ClientState → ClientState
  | 0, s => s
  | n + 1, s => probeIter cfg health n (checkApiHealth cfg health s).2

/-- C1: `probe()` respects priority order: if the primary (production)
candidate's `/health` answers ok within its 6000 ms timeout, the result is
`"production"` with Active Endpoint = production base URL, regardless of the
fallback's availability; only when the primary probe fails is the fallback
probed (3000 ms timeout), yielding `"local"` and the local base URL on
success, and `"offline"` when both fail. -/
theorem checkApiHealth_priority (cfg : Config)
    (health : String → Nat → FetchOutcome) (s : ClientState) :
    (tryHealthOk (health (cfg.PRODUCTION_API_URL ++ "/health") 6000) = true →
      checkApiHealth cfg health s =
        ("production", ⟨"production", cfg.PRODUCTION_API_URL⟩))
    ∧ (tryHealthOk (health (cfg.PRODUCTION_API_URL ++ "/health") 6000) = false →
       tryHealthOk (health (cfg.LOCAL_API_URL ++ "/health") 3000) = true →
      checkApiHealth cfg health s = ("local", ⟨"local", cfg.LOCAL_API_URL⟩))
    ∧ (tryHealthOk (health (cfg.PRODUCTION_API_URL ++ "/health") 6000) = false →
       tryHealthOk (health (cfg.LOCAL_API_URL ++ "/health") 3000) = false →
      checkApiHealth cfg health s = ("offline", ⟨"offline", s.currentApiUrl⟩)) := by
  refine ⟨fun h1 => ?_, fun h1 h2 => ?_, fun h1 h2 => ?_⟩ <;>
    simp [checkApiHealth, h1]
  · simp [h2]
  · simp [h2]

/-- Witness for C1: with the primary reachable and the fallback down, the
probe selects production. -/
theorem checkApiHealth_priority_witness :
    checkApiHealth defaultConfig (fun _ _ => FetchOutcome.ok)
      (initialState defaultConfig) =
      ("production", ⟨"production", defaultConfig.PRODUCTION_API_URL⟩) :=
  (checkApiHealth_priority defaultConfig (fun _ _ => FetchOutcome.ok)
    (initialState defaultConfig)).1 rfl

/-- C3: for every combination of probe outcomes, `checkApiHealth` is a total
function (the source absorbs every failure in try/catch and never rethrows)
whose result is exactly one of `"production"`, `"local"`, `"offline"`; the
stored status equals the returned status, so it is never left at
`"checking"`. -/
theorem checkApiHealth_never_checking (cfg : Config)
    (health : String → Nat → FetchOutcome) (s : ClientState) :
    ((checkApiHealth cfg health s).1 = "production" ∨
     (checkApiHealth cfg health s).1 = "local" ∨
     (checkApiHealth cfg health s).1 = "offline")
    ∧ (checkApiHealth cfg health s).2.apiStatus = (checkApiHealth cfg health s).1
    ∧ (checkApiHealth cfg health s).2.apiStatus ≠ "checking" := by
  unfold checkApiHealth
  split
  · simp
  · split <;> simp

/-- C9 helper: one probe with both candidates down only rewrites the status
to `"offline"`. -/
theorem checkApiHealth_bothDown (cfg : Config)
    (health : String → Nat → FetchOutcome) (s : ClientState)
    (h1 : tryHealthOk (health (cfg.PRODUCTION_API_URL ++ "/health") 6000) = false)
    (h2 : tryHealthOk (health (cfg.LOCAL_API_URL ++ "/health") 3000) = false) :
    checkApiHealth cfg health s = ("offline", ⟨"offline", s.currentApiUrl⟩) := by
  simp [checkApiHealth, h1, h2]

/-- C9: while both candidates remain down, any positive number of repeated
probes ends with status `"offline"` and the Active Endpoint exactly as it was
before the probes — the probes never mutate `currentApiUrl`. -/
theorem checkApiHealth_bothDown_idempotent (cfg : Config)
    (health : String → Nat → FetchOutcome) (s : ClientState)
    (h1 : tryHealthOk (health (cfg.PRODUCTION_API_URL ++ "/health") 6000) = false)
    (h2 : tryHealthOk (health (cfg.LOCAL_API_URL ++ "/health") 3000) = false) :
    ∀ n, probeIter cfg health (n + 1) s = ⟨"offline", s.currentApiUrl⟩ := by
  intro n
  induction n generalizing s with
  | zero =>
      simp [probeIter, checkApiHealth_bothDown cfg health s h1 h2]
  | succ m ih =>
      have hstep := checkApiHealth_bothDown cfg health s h1 h2
      show probeIter cfg health (m + 1) (checkApiHealth cfg health s).2 = _
      rw [hstep]
      exact ih _

/-- Witness for C9: three consecutive probes with both candidates timing out
leave the initial production Active Endpoint untouched and the status
offline. -/
theorem checkApiHealth_bothDown_idempotent_witness :
    probeIter defaultConfig (fun _ _ => FetchOutcome.timeout) 3
      (initialState defaultConfig) =
      ⟨"offline", defaultConfig.PRODUCTION_API_URL⟩ :=
  checkApiHealth_bothDown_idempotent defaultConfig
    (fun _ _ => FetchOutcome.timeout) (initialState defaultConfig) rfl rfl 2

/-- A JavaScript runtime error value: its `name` and `message` fields, which
are all the retry classifier inspects. -/
structure JsError where
  name : String
  message : String
deriving Repr, DecidableEq

/-- A parsed JSON response body as far as the client inspects it: the
optional `message` field (absent models both a missing field and a non-object
body) and an opaque rendering of the rest of the payload. -/
structure JsonData where
  message : Option String
  payload : String
deriving Repr, DecidableEq

/-- JavaScript `x || d` on an optional string: the default is taken when the
field is absent or the empty string (falsy). -/
def jsOr (o : Option String) (d : String) : String :=
  match o with
  | some v => if v = "" then d else v
  | none => d

/-- JavaScript `s.includes(pat)`: `pat` occurs as a contiguous substring of
`s`. -/
def jsIncludes (s pat : String) : Bool :=
  (List.range (s.data.length + 1)).any (fun i => pat.data.isPrefixOf (s.data.drop i))

/-- The caller-supplied serialized body, through the eyes of the host
`JSON.parse`: either it parses back to a structured object (whose shape the
client never inspects, kept opaque) or `JSON.parse` throws a `SyntaxError`
whose message is engine-defined. -/
inductive Body where
  | valid (obj : String)
  | invalid (errMsg : String)
deriving Repr, DecidableEq

/-- The `options` argument of `apiCall`: optional method (defaulting to
`'GET'` via `options.method || 'GET'`), caller headers (JS object spread:
later bindings win), optional serialized body. -/
structure CallOptions where
  method : Option String
  headers : List (String × String)
  body : Option Body
deriving Repr, DecidableEq

/-- JS truthiness of the token (`token && {Authorization: ...}`): a null /
absent token and the empty string are falsy. -/
def tokenTruthy : Option String → Bool
  | none => false
  | some t => t ≠ ""

/-- The Authorization entry spread into the headers:
`...(token && { Authorization: Bearer <token> })`. -/
def authHeader : Option String → List (String × String)
  | none => []
  | some t => if t = "" then [] else [("Authorization", "Bearer " ++ t)]

/-- The composed headers object of `apiCall` (`src/unnamed/part_000` lines
80–84): `Content-Type: application/json`, then the conditional Authorization
entry, then the caller's headers. A JS object literal keeps the last binding
of a repeated key, so lookup is on the reversed list. -/
def headersList (token : Option String) (callerHeaders : List (String × String)) :
    List (String × String) :=
  ("Content-Type", "application/json") :: (authHeader token ++ callerHeaders)

/-- Reading key `k` of a JS object represented as a binding list: the last
binding wins. -/
def getHeader (hs : List (String × String)) (k : String) : Option String :=
  hs.reverse.lookup k

/-- What one host response looks like to the native (CapacitorHttp) path:
numeric status and parsed data. -/
structure NativeResp where
  status : Nat
  data : JsonData
deriving Repr, DecidableEq

/-- What one host response looks like to the web (fetch) path: numeric status
(from which `res.ok` is derived) and the `res.json()` data. -/
structure WebResp where
  status : Nat
  data : JsonData
deriving Repr, DecidableEq

/-- Models `res.ok` of the fetch API: status in the 2xx range. -/
def webOk (status : Nat) : Bool := 200 ≤ status && status < 300

instance {ε α : Type} [DecidableEq ε] [DecidableEq α] : DecidableEq (Except ε α) :=
  fun x y =>
    match x, y with
    | .ok a, .ok b =>
        if h : a = b then .isTrue (by rw [h]) else .isFalse (by simp [h])
    | .error a, .error b =>
        if h : a = b then .isTrue (by rw [h]) else .isFalse (by simp [h])
    | .ok _, .error _ => .isFalse (by simp)
    | .error _, .ok _ => .isFalse (by simp)

/-- The per-attempt environment of `apiCall`: the platform check
`isNative()` and the oracle outcomes of the two transports (a thrown
`JsError`, or a response). Only one of the two transport outcomes is
consulted, according to `isNative`. The value of `currentApiUrl` is NOT
per-attempt state: it is a render-scope const captured once by the
`useCallback` closure that runs the whole retry chain, so it is a parameter
of the chain (like `token`), not of the attempt. -/
structure Attempt where
  isNative : Bool
  nativeResult : Except JsError NativeResp
  webResult : Except JsError WebResp
deriving Repr, DecidableEq

/-- A request actually handed to a transport: its URL, method and headers. -/
structure Dispatch where
  url : String
  method : String
  headers : List (String × String)
deriving Repr, DecidableEq

/-- One attempt of `apiCall` (`src/unnamed/part_000` lines 78–119): compute
`url = currentApiUrl ++ endpoint` and the headers; on the native path first
evaluate `options.body ? JSON.parse(options.body) : undefined` (a
`SyntaxError` here aborts before any dispatch), then dispatch via
CapacitorHttp and throw `Error(res.data?.message || 'Request failed')` on
status ≥ 400; on the web path dispatch via fetch, parse `res.json()`, and
throw `Error(data.message || 'Request failed')` when `!res.ok`. Returns the
outcome together with the dispatch that was issued, if any. `currentApiUrl`
is the closure-captured Active Endpoint value of the chain. -/
def runAttempt (token : Option String) (currentApiUrl : String) (opts : CallOptions)
    (endpoint : String) (att : Attempt) : Except JsError JsonData × Option Dispatch :=
  let url := currentApiUrl ++ endpoint
  let hs := headersList token opts.headers
  let meth := jsOr opts.method "GET"
  if att.isNative then
    match opts.body with
    | some (.invalid m) => (.error ⟨"SyntaxError", m⟩, none)
    | _ =>
      let d : Dispatch := ⟨url, meth, hs⟩
      match att.nativeResult with
      | .error e => (.error e, some d)
      | .ok r =>
        if 400 ≤ r.status then
          (.error ⟨"Error", jsOr r.data.message "Request failed"⟩, some d)
        else
          (.ok r.data, some d)
  else
    let d : Dispatch := ⟨url, meth, hs⟩
    match att.webResult with
    | .error e => (.error e, some d)
    | .ok r =>
      if webOk r.status then (.ok r.data, some d)
      else (.error ⟨"Error", jsOr r.data.message "Request failed"⟩, some d)

/-- The retry classifier of `src/unnamed/part_000` lines 121–126: an error is
retried when its name is `AbortError` or its message contains `fetch` or
`network`. (`AuthContext.js` line 94 adds a redundant `Failed to fetch`
disjunct, subsumed by `fetch`.) -/
def classifyTransient (e : JsError) : Bool :=
  e.name == "AbortError" || jsIncludes e.message "fetch" || jsIncludes e.message "network"

/-- The log of one loop iteration: the dispatch issued by the attempt (none
when `JSON.parse` threw before dispatch) and the backoff wait performed after
it, when the attempt failed transiently and was retried. -/
structure AttemptLog where
  dispatch : Option Dispatch
  backoffMs : Option Nat
deriving Repr, DecidableEq

/-- The retry recursion of `apiCall`, attempt number `i` onward (`env` gives
each attempt's transport outcomes): on error, if `retries > 0` and the error
classifies transient, wait 2000 ms and recurse with `retries - 1`; otherwise
rethrow. The recursive call (`part_000` line 128) invokes the same
`useCallback` closure, whose captured render-scope consts `token` and
`currentApiUrl` are therefore the same for every attempt of the chain — a
concurrent `setCurrentApiUrl` only affects closures of later renders, never
an in-flight chain — so both are chain-level parameters here, while the host
outcomes `env (i+1)` vary per attempt. -/
def apiCallFrom (token : Option String) (currentApiUrl : String) (opts : CallOptions)
    (endpoint : String) (env : Nat → Attempt) (i : Nat) (retries : Nat) :
    Except JsError JsonData × List AttemptLog :=
  match runAttempt token currentApiUrl opts endpoint (env i) with
  | (.ok d, disp) => (.ok d, [⟨disp, none⟩])
  | (.error e, disp) =>
    match retries with
    | r + 1 =>
      if classifyTransient e then
        let rest := apiCallFrom token currentApiUrl opts endpoint env (i + 1) r
        (rest.1, ⟨disp, some 2000⟩ :: rest.2)
      else (.error e, [⟨disp, none⟩])
    | 0 => (.error e, [⟨disp, none⟩])

/-- Embeds `apiCall(endpoint, options, retries)` (`src/unnamed/part_000` lines
76–134): the retry recursion started at attempt 0. The default retry budget
is 2. -/
def apiCall (token : Option String) (currentApiUrl : String) (opts : CallOptions)
    (endpoint : String) (env : Nat → Attempt) (retries : Nat) :
    Except JsError JsonData × List AttemptLog :=
  apiCallFrom token currentApiUrl opts endpoint env 0 retries

theorem lookup_append_some {l₁ l₂ : List (String × String)} {k : String}
    {v : String} (h : l₁.lookup k = some v) : (l₁ ++ l₂).lookup k = some v := by
  induction l₁ with
  | nil => simp [List.lookup] at h
  | cons p t ih =>
      obtain ⟨k₀, v₀⟩ := p
      cases hk : (k == k₀) <;> simp [List.lookup, hk] at h ⊢
      · exact ih h
      · exact h

theorem lookup_append_none {l₁ : List (String × String)} (l₂ : List (String × String))
    {k : String} (h : l₁.lookup k = none) : (l₁ ++ l₂).lookup k = l₂.lookup k := by
  induction l₁ with
  | nil => simp
  | cons p t ih =>
      obtain ⟨k₀, v₀⟩ := p
      cases hk : (k == k₀)
      · simp only [List.lookup, hk] at h ⊢
        exact ih h
      · simp only [List.lookup, hk] at h
        exact Option.noConfusion h

/-- C5: the dispatched headers are `Content-Type: application/json`, plus
`Authorization: Bearer <token>` exactly when the token store holds a (truthy)
token, merged with the caller's headers, the caller winning every key
conflict; with no token (and no caller-supplied Authorization) the composed
object carries no Authorization binding at all — in particular never
`Bearer undefined` or `Bearer null`. -/
theorem apiCall_headers (token : Option String) (caller : List (String × String)) :
    (getHeader caller "Content-Type" = none →
      getHeader (headersList token caller) "Content-Type" = some "application/json")
    ∧ (∀ k v, getHeader caller k = some v →
      getHeader (headersList token caller) k = some v)
    ∧ (∀ t, token = some t → t ≠ "" → getHeader caller "Authorization" = none →
      getHeader (headersList token caller) "Authorization" = some ("Bearer " ++ t))
    ∧ (token = none → getHeader caller "Authorization" = none →
      getHeader (headersList token caller) "Authorization" = none) := by
  have hrev : ∀ k, getHeader (headersList token caller) k =
      ((caller.reverse ++ (authHeader token).reverse) ++
        [("Content-Type", "application/json")]).lookup k := by
    intro k
    simp [getHeader, headersList]
  refine ⟨fun h => ?_, fun k v h => ?_, fun t ht hne h => ?_, fun ht h => ?_⟩
  · rw [hrev, lookup_append_none, List.lookup]
    · rfl
    · rw [lookup_append_none]
      · cases token with
        | none => simp [authHeader, List.lookup]
        | some t =>
            by_cases he : t = "" <;> simp [authHeader, he, List.lookup]
      · exact h
  · rw [hrev, List.append_assoc]
    exact lookup_append_some h
  · rw [hrev, List.append_assoc, lookup_append_none _ h, ht]
    simp [authHeader, hne, List.lookup]
  · rw [hrev, List.append_assoc, lookup_append_none _ h, ht]
    simp [authHeader, List.lookup]

/-- Witness for C5: with no token and a caller header `X-Custom`, the
composed headers carry the JSON content type, the caller's header, and no
Authorization binding. -/
theorem apiCall_headers_witness :
    getHeader (headersList none [("X-Custom", "1")]) "Content-Type" =
      some "application/json"
    ∧ getHeader (headersList none [("X-Custom", "1")]) "X-Custom" = some "1"
    ∧ getHeader (headersList none [("X-Custom", "1")]) "Authorization" = none := by
  have h := apiCall_headers none [("X-Custom", "1")]
  exact ⟨h.1 rfl, h.2.1 "X-Custom" "1" rfl, h.2.2.2 rfl rfl⟩

theorem apiCallFrom_ok (token : Option String) (currentApiUrl : String) (opts : CallOptions)
    (endpoint : String) (env : Nat → Attempt) (i retries : Nat)
    (dta : JsonData) (disp : Option Dispatch)
    (he : runAttempt token currentApiUrl opts endpoint (env i) = (Except.ok dta, disp)) :
    apiCallFrom token currentApiUrl opts endpoint env i retries = (Except.ok dta, [⟨disp, none⟩]) := by
  cases retries <;> · unfold apiCallFrom; rw [he]

theorem apiCallFrom_error_stop (token : Option String) (currentApiUrl : String) (opts : CallOptions)
    (endpoint : String) (env : Nat → Attempt) (i retries : Nat)
    (e : JsError) (disp : Option Dispatch)
    (he : runAttempt token currentApiUrl opts endpoint (env i) = (Except.error e, disp))
    (hc : classifyTransient e = false) :
    apiCallFrom token currentApiUrl opts endpoint env i retries = (Except.error e, [⟨disp, none⟩]) := by
  cases retries with
  | zero => unfold apiCallFrom; rw [he]
  | succ r => unfold apiCallFrom; rw [he]; simp [hc]

theorem apiCallFrom_error_retry (token : Option String) (currentApiUrl : String) (opts : CallOptions)
    (endpoint : String) (env : Nat → Attempt) (i r : Nat)
    (e : JsError) (disp : Option Dispatch)
    (he : runAttempt token currentApiUrl opts endpoint (env i) = (Except.error e, disp))
    (hc : classifyTransient e = true) :
    apiCallFrom token currentApiUrl opts endpoint env i (r + 1) =
      ((apiCallFrom token currentApiUrl opts endpoint env (i + 1) r).1,
        ⟨disp, some 2000⟩ :: (apiCallFrom token currentApiUrl opts endpoint env (i + 1) r).2) := by
  conv_lhs => rw [apiCallFrom]
  rw [he]
  simp [hc]

theorem apiCallFrom_error_zero (token : Option String) (currentApiUrl : String) (opts : CallOptions)
    (endpoint : String) (env : Nat → Attempt) (i : Nat)
    (e : JsError) (disp : Option Dispatch)
    (he : runAttempt token currentApiUrl opts endpoint (env i) = (Except.error e, disp)) :
    apiCallFrom token currentApiUrl opts endpoint env i 0 = (Except.error e, [⟨disp, none⟩]) := by
  unfold apiCallFrom; rw [he]

theorem apiCallFrom_allTransient (token : Option String) (currentApiUrl : String) (opts : CallOptions)
    (endpoint : String) (env : Nat → Attempt)
    (h : ∀ i, ∃ e d, runAttempt token currentApiUrl opts endpoint (env i) = (Except.error e, d) ∧
      classifyTransient e = true) :
    ∀ retries i, (apiCallFrom token currentApiUrl opts endpoint env i retries).2.length = retries + 1 ∧
      ∃ e, (apiCallFrom token currentApiUrl opts endpoint env i retries).1 = Except.error e := by
  intro retries
  induction retries with
  | zero =>
      intro i
      obtain ⟨e, d, he, -⟩ := h i
      rw [apiCallFrom_error_zero token currentApiUrl opts endpoint env i e d he]
      exact ⟨rfl, e, rfl⟩
  | succ r ih =>
      intro i
      obtain ⟨e, d, he, ht⟩ := h i
      rw [apiCallFrom_error_retry token currentApiUrl opts endpoint env i r e d he ht]
      obtain ⟨hlen, e₁, he₁⟩ := ih (i + 1)
      exact ⟨by simp [hlen], e₁, he₁⟩

/-- C2: (a) if every attempt fails with a transiently-classified error, the
executor makes exactly `retries + 1` attempts (three with the default budget
of 2) and then surfaces an error; (b) with budget 2, a call whose first
attempt fails transiently and whose second attempt succeeds returns the
second attempt's parsed payload, after exactly two attempts. -/
theorem apiCall_retryBudget (token : Option String) (currentApiUrl : String) (opts : CallOptions)
    (endpoint : String) (env : Nat → Attempt) :
    ((∀ i, ∃ e d, runAttempt token currentApiUrl opts endpoint (env i) = (Except.error e, d) ∧
        classifyTransient e = true) →
      ∀ retries, (apiCall token currentApiUrl opts endpoint env retries).2.length = retries + 1 ∧
        ∃ e, (apiCall token currentApiUrl opts endpoint env retries).1 = Except.error e)
    ∧ (∀ e d₀ dta d₁,
        runAttempt token currentApiUrl opts endpoint (env 0) = (Except.error e, d₀) →
        classifyTransient e = true →
        runAttempt token currentApiUrl opts endpoint (env 1) = (Except.ok dta, d₁) →
        (apiCall token currentApiUrl opts endpoint env 2).1 = Except.ok dta ∧
        (apiCall token currentApiUrl opts endpoint env 2).2.length = 2) := by
  constructor
  · intro h retries
    exact apiCallFrom_allTransient token currentApiUrl opts endpoint env h retries 0
  · intro e d₀ dta d₁ h0 ht h1
    unfold apiCall
    rw [apiCallFrom_error_retry token currentApiUrl opts endpoint env 0 1 e d₀ h0 ht,
      apiCallFrom_ok token currentApiUrl opts endpoint env 1 1 dta d₁ h1]
    exact ⟨rfl, rfl⟩

/-- A transiently-failing attempt environment: the web transport aborts. -/
def abortErr : JsError := ⟨"AbortError", "The operation was aborted."⟩

/-- Attempt whose web dispatch times out. -/
def failAttempt : Attempt :=
  { isNative := false
    nativeResult := .error abortErr, webResult := .error abortErr }

/-- A successful response payload. -/
def okData : JsonData := ⟨some "ok", "token and user"⟩

/-- Attempt whose web dispatch answers 200 with `okData`. -/
def okAttempt : Attempt :=
  { isNative := false
    nativeResult := .error abortErr, webResult := .ok ⟨200, okData⟩ }

/-- A POST with no caller headers and no body. -/
def postOpts : CallOptions := ⟨some "POST", [], none⟩

/-- Witness for C2: a call failing transiently on every attempt uses exactly
three attempts with budget 2; a call recovering on the second attempt returns
its payload after two attempts. -/
theorem apiCall_retryBudget_witness :
    ((apiCall none "http://localhost:5000/api" postOpts "/auth/login" (fun _ => failAttempt) 2).2.length = 2 + 1 ∧
      ∃ e, (apiCall none "http://localhost:5000/api" postOpts "/auth/login" (fun _ => failAttempt) 2).1 =
        Except.error e)
    ∧ ((apiCall none "http://localhost:5000/api" postOpts "/auth/login"
          (fun i => if i = 0 then failAttempt else okAttempt) 2).1 = Except.ok okData ∧
      (apiCall none "http://localhost:5000/api" postOpts "/auth/login"
          (fun i => if i = 0 then failAttempt else okAttempt) 2).2.length = 2) := by
  constructor
  · exact (apiCall_retryBudget none "http://localhost:5000/api" postOpts "/auth/login" (fun _ => failAttempt)).1
      (fun i => ⟨abortErr, _, rfl, rfl⟩) 2
  · exact (apiCall_retryBudget none "http://localhost:5000/api" postOpts "/auth/login"
      (fun i => if i = 0 then failAttempt else okAttempt)).2 abortErr _ okData _ rfl rfl rfl

/-- Attempt answering HTTP 400 with a server message that happens to contain
the word `network`. -/
def businessNetworkAttempt : Attempt :=
  { isNative := false
    nativeResult := .error abortErr
    webResult := .ok ⟨400, ⟨some "network error during login", ""⟩⟩ }

/-- Counterexample to C4 as stated: an HTTP 400 response whose structured
server message contains `network` IS retried — the classifier matches on the
message text, so the call makes three attempts with budget 2 instead of
surfacing the business error at once. -/
theorem apiCall_businessError_counterexample :
    (apiCall none "http://localhost:5000/api" postOpts "/auth/login" (fun _ => businessNetworkAttempt) 2).2.length = 3
    ∧ (apiCall none "http://localhost:5000/api" postOpts "/auth/login" (fun _ => businessNetworkAttempt) 2).1 =
      Except.error ⟨"Error", "network error during login"⟩ := ⟨rfl, rfl⟩

/-- C4 (amended): a response with HTTP status ≥ 400 surfaces the
server-provided message (`data.message`, or the generic `Request failed` when
absent or empty) with no retry, PROVIDED the surfaced message does not
contain `fetch` or `network` — the transient classifier matches on message
text, so such messages are retried instead. -/
theorem apiCall_businessError_noRetry (token : Option String) (currentApiUrl : String) (opts : CallOptions)
    (endpoint : String) (env : Nat → Attempt) (retries status : Nat) (dta : JsonData)
    (hweb : (env 0).isNative = false)
    (hres : (env 0).webResult = Except.ok ⟨status, dta⟩)
    (hstatus : 400 ≤ status)
    (hf : jsIncludes (jsOr dta.message "Request failed") "fetch" = false)
    (hn : jsIncludes (jsOr dta.message "Request failed") "network" = false) :
    (apiCall token currentApiUrl opts endpoint env retries).1 =
      Except.error ⟨"Error", jsOr dta.message "Request failed"⟩ ∧
    (apiCall token currentApiUrl opts endpoint env retries).2.length = 1 := by
  have hok : webOk status = false := by
    simp only [webOk, Bool.and_eq_false_iff, decide_eq_false_iff_not, Nat.not_lt]
    omega
  have hrun : runAttempt token currentApiUrl opts endpoint (env 0) =
      (Except.error ⟨"Error", jsOr dta.message "Request failed"⟩,
        some ⟨currentApiUrl ++ endpoint, jsOr opts.method "GET",
          headersList token opts.headers⟩) := by
    unfold runAttempt
    simp [hweb, hres, hok]
  have hcl : classifyTransient ⟨"Error", jsOr dta.message "Request failed"⟩ = false := by
    simp [classifyTransient, hf, hn]
  unfold apiCall
  rw [apiCallFrom_error_stop token currentApiUrl opts endpoint env 0 retries _ _ hrun hcl]
  exact ⟨rfl, rfl⟩

/-- Attempt answering HTTP 400 with message `Invalid credentials`. -/
def invalidCredAttempt : Attempt :=
  { isNative := false
    nativeResult := .error abortErr
    webResult := .ok ⟨400, ⟨some "Invalid credentials", ""⟩⟩ }

/-- Witness for the amended C4: HTTP 400 `Invalid credentials` is surfaced
verbatim in a single attempt even with budget 2. -/
theorem apiCall_businessError_noRetry_witness :
    (apiCall none "http://localhost:5000/api" postOpts "/auth/login" (fun _ => invalidCredAttempt) 2).1 =
      Except.error ⟨"Error", "Invalid credentials"⟩ ∧
    (apiCall none "http://localhost:5000/api" postOpts "/auth/login" (fun _ => invalidCredAttempt) 2).2.length = 1 :=
  apiCall_businessError_noRetry none "http://localhost:5000/api" postOpts "/auth/login" (fun _ => invalidCredAttempt)
    2 400 ⟨some "Invalid credentials", ""⟩ rfl rfl (by decide) (by decide) (by decide)

/-- An environment whose first attempt fails transiently and whose second
attempt answers 200. -/
def retryEnv : Nat → Attempt := fun i => if i = 0 then failAttempt else okAttempt

/-- Counterexample to C6 as stated: `currentApiUrl` is a render-scope const
captured by the `useCallback` closure, and the recursive retry call
(`part_000` line 128) resolves to that same closure, so both attempts of the
chain are dispatched to the captured endpoint `http://a/api`; even when the
Active Endpoint is changed (say to `http://b/api`) between the attempts, the
retry is not dispatched against the new value. -/
theorem apiCall_retry_cached_counterexample :
    (apiCall none "http://a/api" postOpts "/x" retryEnv 2).2.map (fun l => l.dispatch) =
      [some ⟨"http://a/api/x", "POST", [("Content-Type", "application/json")]⟩,
       some ⟨"http://a/api/x", "POST", [("Content-Type", "application/json")]⟩]
    ∧ "http://a/api/x" ≠ "http://b/api/x" := ⟨rfl, by decide⟩

/-- C6 (amended): a transiently-failed attempt with a positive budget waits
the fixed 2000 ms backoff, decrements the budget by one, and retries with the
next attempt’s transport outcomes; the dispatch of every (web) attempt of the
chain resolves its URL from the one closure-captured `currentApiUrl` — so if
the Active Endpoint changes between attempts, the retry is still dispatched
against the value captured when the chain began, not the new value. -/
theorem apiCall_retry_cachedEndpoint (token : Option String) (currentApiUrl : String)
    (opts : CallOptions) (endpoint : String) (env : Nat → Attempt) :
    (∀ i r e d, runAttempt token currentApiUrl opts endpoint (env i) = (Except.error e, d) →
      classifyTransient e = true →
      apiCallFrom token currentApiUrl opts endpoint env i (r + 1) =
        ((apiCallFrom token currentApiUrl opts endpoint env (i + 1) r).1,
          ⟨d, some 2000⟩ :: (apiCallFrom token currentApiUrl opts endpoint env (i + 1) r).2))
    ∧ (∀ j, (env j).isNative = false →
      (runAttempt token currentApiUrl opts endpoint (env j)).2 =
        some ⟨currentApiUrl ++ endpoint, jsOr opts.method "GET",
          headersList token opts.headers⟩) := by
  constructor
  · intro i r e d he ht
    exact apiCallFrom_error_retry token currentApiUrl opts endpoint env i r e d he ht
  · intro j hj
    unfold runAttempt
    simp only [hj, Bool.false_eq_true, if_false]
    cases hw : (env j).webResult with
    | error e => simp [hw]
    | ok r =>
        simp only [hw]
        split <;> rfl

/-- Witness for the amended C6: after a transient failure, the retry is
logged with a 2000 ms backoff and budget 2 → 1, and both attempts dispatch to
the captured `http://a/api`. -/
theorem apiCall_retry_cachedEndpoint_witness :
    (apiCallFrom none "http://a/api" postOpts "/x" retryEnv 0 (1 + 1) =
      ((apiCallFrom none "http://a/api" postOpts "/x" retryEnv 1 1).1,
        ⟨some ⟨"http://a/api" ++ "/x", jsOr postOpts.method "GET",
            headersList none postOpts.headers⟩, some 2000⟩ ::
          (apiCallFrom none "http://a/api" postOpts "/x" retryEnv 1 1).2))
    ∧ (runAttempt none "http://a/api" postOpts "/x" (retryEnv 1)).2 =
      some ⟨"http://a/api" ++ "/x", jsOr postOpts.method "GET",
        headersList none postOpts.headers⟩ := by
  have h := apiCall_retry_cachedEndpoint none "http://a/api" postOpts "/x" retryEnv
  exact ⟨h.1 0 1 abortErr _ rfl rfl, h.2 1 rfl⟩

/-- C7 (amended): on the native transport path, a caller body that is not
valid serialized JSON makes `JSON.parse` throw before any dispatch: the call
surfaces the `SyntaxError` to its caller at once — one attempt, no dispatch
issued (the body is never silently dropped), no retry — PROVIDED the
engine-defined parse message does not contain the classifier substrings
`fetch` / `network`; a message that does (modern V8 quotes the body text in
it) is classified transient and retried to budget before surfacing. -/
theorem apiCall_invalidBody_failsLoudly (token : Option String) (currentApiUrl : String) (opts : CallOptions)
    (endpoint : String) (env : Nat → Attempt) (retries : Nat) (m : String)
    (hnat : (env 0).isNative = true)
    (hb : opts.body = some (Body.invalid m))
    (hf : jsIncludes m "fetch" = false)
    (hm : jsIncludes m "network" = false) :
    apiCall token currentApiUrl opts endpoint env retries =
      (Except.error ⟨"SyntaxError", m⟩, [⟨none, none⟩]) := by
  have hrun : runAttempt token currentApiUrl opts endpoint (env 0) =
      (Except.error ⟨"SyntaxError", m⟩, none) := by
    unfold runAttempt
    simp [hnat, hb]
  have hcl : classifyTransient ⟨"SyntaxError", m⟩ = false := by
    simp [classifyTransient, hf, hm]
  unfold apiCall
  exact apiCallFrom_error_stop token currentApiUrl opts endpoint env 0 retries _ _ hrun hcl

/-- A native-path call whose body is not valid JSON. -/
def badBodyOpts : CallOptions :=
  ⟨some "POST", [], some (Body.invalid "Unexpected token u in JSON at position 0")⟩

/-- A native attempt whose transports would succeed (showing the failure is
pre-dispatch). -/
def nativeAttempt : Attempt :=
  { isNative := true
    nativeResult := .ok ⟨200, ⟨none, ""⟩⟩, webResult := .ok ⟨200, ⟨none, ""⟩⟩ }

/-- Witness for C7: the malformed body surfaces the parse error in one
attempt, with no dispatch record and no retry. -/
theorem apiCall_invalidBody_failsLoudly_witness :
    apiCall none "http://localhost:5000/api" badBodyOpts "/auth/login" (fun _ => nativeAttempt) 2 =
      (Except.error ⟨"SyntaxError", "Unexpected token u in JSON at position 0"⟩,
        [⟨none, none⟩]) :=
  apiCall_invalidBody_failsLoudly none "http://localhost:5000/api" badBodyOpts "/auth/login" (fun _ => nativeAttempt)
    2 "Unexpected token u in JSON at position 0" rfl rfl (by decide) (by decide)

/-- A native-path call whose body is the malformed text `network down`; the
engine’s parse message quotes the body, as modern V8 messages do, so it
contains `network`. -/
def badNetworkBodyOpts : CallOptions :=
  ⟨some "POST", [],
    some (Body.invalid "Unexpected token n, \"network down\" is not valid JSON")⟩

/-- Counterexample to C7 as stated: when the engine-defined `SyntaxError`
message contains `network` (V8-style messages quoting a malformed body that
contains the word), the parse failure is classified transient and retried to
budget exhaustion — three attempts with 2000 ms backoffs, none of them
dispatching — before the error is surfaced, contradicting ‘immediately,
without retrying’. -/
theorem apiCall_invalidBody_retried_counterexample :
    apiCall none "http://localhost:5000/api" badNetworkBodyOpts "/auth/login"
        (fun _ => nativeAttempt) 2 =
      (Except.error
          ⟨"SyntaxError", "Unexpected token n, \"network down\" is not valid JSON"⟩,
        [⟨none, some 2000⟩, ⟨none, some 2000⟩, ⟨none, none⟩]) := rfl

/-- Embeds `apiCall` of the reactive-failover variant (`src/unnamed/part_001` lines
71–126): try the current Active Endpoint (`o1` is the oracle outcome of
`tryApiCall(currentApiUrl)`); on success return without touching state. On
failure, if the current url is not the local one, switch to local and try it
(`o2`); on success keep local, on a second failure switch back to production
and throw an error combining both messages. If the current url already was
local, switch to production and try it; on success keep production, on a
second failure throw the combined error (url stays production). -/
def apiCallFallback (cfg : Config) (s : ClientState)
    (o1 o2 : Except JsError JsonData) : Except JsError JsonData × ClientState :=
  match o1 with
  | .ok d => (.ok d, s)
  | .error e1 =>
    if s.currentApiUrl ≠ cfg.LOCAL_API_URL then
      match o2 with
      | .ok d => (.ok d, { s with currentApiUrl := cfg.LOCAL_API_URL })
      | .error e2 =>
        (.error ⟨"Error", "Both production and local APIs failed. Production: " ++
            e1.message ++ ", Local: " ++ e2.message⟩,
          { s with currentApiUrl := cfg.PRODUCTION_API_URL })
    else
      match o2 with
      | .ok d => (.ok d, { s with currentApiUrl := cfg.PRODUCTION_API_URL })
      | .error e2 =>
        (.error ⟨"Error", "Both APIs failed. Local: " ++ e1.message ++
            ", Production: " ++ e2.message⟩,
          { s with currentApiUrl := cfg.PRODUCTION_API_URL })

theorem jsIncludes_of_data_split (s pat : String) (x y : List Char)
    (h : s.data = x ++ pat.data ++ y) : jsIncludes s pat = true := by
  unfold jsIncludes
  simp only [List.any_eq_true, List.mem_range]
  refine ⟨x.length, ?_, ?_⟩
  · rw [h]
    simp only [List.length_append]
    omega
  · rw [h, List.append_assoc, List.drop_left]
    simp [List.isPrefixOf_iff_prefix]

/-- C10: in the reactive-failover variant, when the attempt against the
current Active Endpoint and the subsequent attempt against the other
endpoint both fail, the call throws a single error whose message contains
both attempts' failure messages, and the Active Endpoint on return equals the
production base URL — whichever endpoint was active at the start. -/
theorem apiCallFallback_bothFail_eq_notLocal (cfg : Config) (s : ClientState)
    (e1 e2 : JsError) (hs : s.currentApiUrl ≠ cfg.LOCAL_API_URL) :
    apiCallFallback cfg s (Except.error e1) (Except.error e2) =
      (Except.error ⟨"Error", "Both production and local APIs failed. Production: " ++
          e1.message ++ ", Local: " ++ e2.message⟩,
        { s with currentApiUrl := cfg.PRODUCTION_API_URL }) := by
  unfold apiCallFallback
  simp [hs]

theorem apiCallFallback_bothFail_eq_local (cfg : Config) (s : ClientState)
    (e1 e2 : JsError) (hs : s.currentApiUrl = cfg.LOCAL_API_URL) :
    apiCallFallback cfg s (Except.error e1) (Except.error e2) =
      (Except.error ⟨"Error", "Both APIs failed. Local: " ++ e1.message ++
          ", Production: " ++ e2.message⟩,
        { s with currentApiUrl := cfg.PRODUCTION_API_URL }) := by
  unfold apiCallFallback
  simp [hs]

theorem apiCallFallback_bothFail (cfg : Config) (s : ClientState) (e1 e2 : JsError) :
    (apiCallFallback cfg s (Except.error e1) (Except.error e2)).2.currentApiUrl =
      cfg.PRODUCTION_API_URL
    ∧ (∃ m, (apiCallFallback cfg s (Except.error e1) (Except.error e2)).1 =
        Except.error ⟨"Error", m⟩ ∧
        jsIncludes m e1.message = true ∧ jsIncludes m e2.message = true)
    ∧ (s.currentApiUrl ≠ cfg.LOCAL_API_URL →
      (apiCallFallback cfg s (Except.error e1) (Except.error e2)).1 =
        Except.error ⟨"Error", "Both production and local APIs failed. Production: " ++
          e1.message ++ ", Local: " ++ e2.message⟩)
    ∧ (s.currentApiUrl = cfg.LOCAL_API_URL →
      (apiCallFallback cfg s (Except.error e1) (Except.error e2)).1 =
        Except.error ⟨"Error", "Both APIs failed. Local: " ++ e1.message ++
          ", Production: " ++ e2.message⟩) := by
  by_cases hs : s.currentApiUrl = cfg.LOCAL_API_URL
  · rw [apiCallFallback_bothFail_eq_local cfg s e1 e2 hs]
    refine ⟨rfl, ⟨_, rfl, ?_, ?_⟩, fun hcon => absurd hs hcon, fun _ => rfl⟩
    · exact jsIncludes_of_data_split _ e1.message "Both APIs failed. Local: ".data
        (", Production: " ++ e2.message).data (by simp [String.data_append])
    · exact jsIncludes_of_data_split _ e2.message
        ("Both APIs failed. Local: " ++ e1.message ++ ", Production: ").data []
        (by simp [String.data_append])
  · rw [apiCallFallback_bothFail_eq_notLocal cfg s e1 e2 hs]
    refine ⟨rfl, ⟨_, rfl, ?_, ?_⟩, fun _ => rfl, fun hcon => absurd hcon hs⟩
    · exact jsIncludes_of_data_split _ e1.message
        "Both production and local APIs failed. Production: ".data
        (", Local: " ++ e2.message).data (by simp [String.data_append])
    · exact jsIncludes_of_data_split _ e2.message
        ("Both production and local APIs failed. Production: " ++ e1.message ++
          ", Local: ").data [] (by simp [String.data_append])

/-- Witness for C10: starting from the production endpoint with both attempts
failing, the single thrown error reports both failures and the Active
Endpoint ends at production. -/
theorem apiCallFallback_bothFail_witness :
    (apiCallFallback defaultConfig (initialState defaultConfig)
        (Except.error abortErr) (Except.error abortErr)).2.currentApiUrl =
      defaultConfig.PRODUCTION_API_URL
    ∧ (apiCallFallback defaultConfig (initialState defaultConfig)
        (Except.error abortErr) (Except.error abortErr)).1 =
      Except.error ⟨"Error", "Both production and local APIs failed. Production: " ++
        abortErr.message ++ ", Local: " ++ abortErr.message⟩ := by
  have h := apiCallFallback_bothFail defaultConfig (initialState defaultConfig)
    abortErr abortErr
  exact ⟨h.1, h.2.2.1 (by decide)⟩

/-- The reachable states of the client: the initial state, closed under
health probes (`checkApiHealth`, any probe outcomes) and reactive-failover
request executions (`apiCallFallback`, any transport outcomes). -/
inductive Reachable (cfg : Config) : ClientState → Prop where
  | init : Reachable cfg (initialState cfg)
  | probe (health : String → Nat → FetchOutcome) (s : ClientState) :
      Reachable cfg s → Reachable cfg (checkApiHealth cfg health s).2
  | call (o1 o2 : Except JsError JsonData) (s : ClientState) :
      Reachable cfg s → Reachable cfg (apiCallFallback cfg s o1 o2).2

theorem checkApiHealth_url (cfg : Config) (health : String → Nat → FetchOutcome)
    (s : ClientState) :
    (checkApiHealth cfg health s).2.currentApiUrl = cfg.PRODUCTION_API_URL ∨
    (checkApiHealth cfg health s).2.currentApiUrl = cfg.LOCAL_API_URL ∨
    (checkApiHealth cfg health s).2.currentApiUrl = s.currentApiUrl := by
  unfold checkApiHealth
  split
  · exact Or.inl rfl
  · split
    · exact Or.inr (Or.inl rfl)
    · exact Or.inr (Or.inr rfl)

theorem apiCallFallback_url (cfg : Config) (s : ClientState)
    (o1 o2 : Except JsError JsonData) :
    (apiCallFallback cfg s o1 o2).2.currentApiUrl = cfg.PRODUCTION_API_URL ∨
    (apiCallFallback cfg s o1 o2).2.currentApiUrl = cfg.LOCAL_API_URL ∨
    (apiCallFallback cfg s o1 o2).2.currentApiUrl = s.currentApiUrl := by
  rcases o1 with e1 | d
  · rcases o2 with e2 | d <;> by_cases hs : s.currentApiUrl = cfg.LOCAL_API_URL <;>
      simp [apiCallFallback, hs]
  · simp [apiCallFallback]

/-- C8: in every reachable state — after any sequence of probes and
reactive-failover request executions — the Active Endpoint equals the
base URL of one of the two configured candidates. (It is never undefined:
the source initialises `currentApiUrl` to the production URL.) -/
theorem activeEndpoint_invariant (cfg : Config) (s : ClientState)
    (h : Reachable cfg s) :
    s.currentApiUrl = cfg.PRODUCTION_API_URL ∨
    s.currentApiUrl = cfg.LOCAL_API_URL := by
  induction h with
  | init => exact Or.inl rfl
  | probe health s₀ hr ih =>
      rcases checkApiHealth_url cfg health s₀ with h | h | h
      · exact Or.inl h
      · exact Or.inr h
      · rw [h]; exact ih
  | call o1 o2 s₀ hr ih =>
      rcases apiCallFallback_url cfg s₀ o1 o2 with h | h | h
      · exact Or.inl h
      · exact Or.inr h
      · rw [h]; exact ih

/-- Witness for C8: the state reached by a failed reactive call from the
initial state satisfies the invariant. -/
theorem activeEndpoint_invariant_witness :
    (apiCallFallback defaultConfig (initialState defaultConfig)
        (Except.error abortErr) (Except.error abortErr)).2.currentApiUrl =
      defaultConfig.PRODUCTION_API_URL ∨
    (apiCallFallback defaultConfig (initialState defaultConfig)
        (Except.error abortErr) (Except.error abortErr)).2.currentApiUrl =
      defaultConfig.LOCAL_API_URL :=
  activeEndpoint_invariant defaultConfig _
    (Reachable.call (Except.error abortErr) (Except.error abortErr)
      (initialState defaultConfig) Reachable.init)

end YogaApi
